import Mathlib

/-!
Verification development for the secret-mirroring controller.

The Go sources are shallowly embedded:
* `pkg/controller/secret-mirror.go` — the `SecretMirror` controller
  (`NewSecretMirror`, `reconcile`, `mirrorSecret`, `handleErr`, `maxRetries`),
* the config `Agent` (`Config`, `Set`, and the watch-loop body of `Start`),
* the rate-limiting work queue interface used by `handleErr`
  (`Forget`, `AddRateLimited`, `NumRequeues`).

Conventions of the embedding:
* `map[string][]byte` secret data is represented as an association list
  `List (String × String)` in canonical form, so Go's `reflect.DeepEqual`
  on two such maps is plain equality of the lists and `len` is `List.length`.
* Pointers that may be nil are `Option`; a fallible call returns its error
  as `Option String` (`none` = Go's `nil` error).
* API writes performed through the client are recorded as a list of
  `WriteOp` values returned alongside the error, so "performs no write"
  is "the write list is empty".
-/

/-- Location of a secret: `SecretLocation{Namespace, Name}`. -/
structure SecretLocation where
  Namespace : String
  Name : String
deriving DecidableEq

/-- One mirroring rule: `MirrorConfig{From, To}`. -/
structure MirrorConfig where
  From : SecretLocation
  To : SecretLocation
deriving DecidableEq

/-- The controller configuration: `Configuration{Secrets []MirrorConfig}`. -/
structure Configuration where
  Secrets : List MirrorConfig
deriving DecidableEq

/-- The metadata fields of a secret that the controller can observe or copy:
`ObjectMeta{Name, Namespace, Labels, Annotations, DeletionTimestamp}`.
`DeletionTimestamp` is a nilable pointer; `none` is Go's `IsZero`. -/
structure ObjectMeta where
  Name : String
  Namespace : String
  Labels : List (String × String)
  Annotations : List (String × String)
  DeletionTimestamp : Option Nat
deriving DecidableEq

/-- A secret: `v1.Secret{ObjectMeta, Type, Data}` (the `Type` field is named
`SecretType` here because `Type` is reserved in Lean). -/
structure Secret where
  ObjectMeta : ObjectMeta
  SecretType : String
  Data : List (String × String)
deriving DecidableEq

/-- `Secret.DeepCopy`: value semantics make a deep copy the identity. -/
def Secret.DeepCopy (s : Secret) : Secret := s

/-- Result of a lister `Get(namespace, name)`: the secret, a not-found
error, or some other lookup error. -/
inductive GetResult where
  | found (s : Secret)
  | notFound
  | failed (e : String)
deriving DecidableEq

/-- The API client's write endpoints: each returns the error produced for
a submitted object (`none` = success). -/
structure Client where
  createResult : Secret → Option String
  updateResult : Secret → Option String

/-- A write issued through the client: `Secrets(namespace).Create/Update(obj)`. -/
inductive WriteOp where
  | create (ns : String) (s : Secret)
  | update (ns : String) (s : Secret)
deriving DecidableEq

/-- The controller state built by `NewSecretMirror`: the `Configuration`
value, the lister and the client (queue/logger omitted; they do not affect
`reconcile`/`mirrorSecret`). -/
structure SecretMirror where
  config : Configuration
  lister : String → String → GetResult
  client : Client

/-- `NewSecretMirror(informer, client, config)`: stores the passed
`Configuration` value in the controller. -/
def NewSecretMirror (lister : String → String → GetResult) (client : Client)
    (config : Configuration) : SecretMirror :=
  { config := config, lister := lister, client := client }

/-- `strings.Split` on a single separator character, over the char list. -/
def splitCharsOn (sep : Char) : List Char → List Char → List (List Char)
  | [], acc => [acc.reverse]
  | ch :: rest, acc =>
    if ch = sep then acc.reverse :: splitCharsOn sep rest []
    else splitCharsOn sep rest (ch :: acc)

/-- `strings.Split(s, sep)` for a one-character separator. -/
def stringSplit (s : String) (sep : Char) : List String :=
  (splitCharsOn sep s.toList []).map (fun cs => String.mk cs)

/-- `cache.SplitMetaNamespaceKey`: one part means a cluster-scoped name,
two parts mean `namespace/name`, anything else is an error. -/
def splitMetaNamespaceKey (key : String) : Except String (String × String) :=
  match stringSplit key '/' with
  | [name] => Except.ok ("", name)
  | [ns, name] => Except.ok (ns, name)
  | _ => Except.error ("unexpected key format: " ++ key)

/-- The composite literal built in the not-found branch of `mirrorSecret`:
only `Name`, `Namespace` and `Data` are set; every other field keeps its
zero value. -/
def createdSecret (source : Secret) (to' : SecretLocation) : Secret :=
  { ObjectMeta :=
      { Name := to'.Name, Namespace := to'.Namespace,
        Labels := [], Annotations := [], DeletionTimestamp := none },
    SecretType := "",
    Data := source.Data }

/-- `mirrorSecret(source, to)`: skip when the source data is empty; look the
destination up; skip when it already matches; update a differing
destination with a deep copy whose `Data` is replaced; create a fresh
destination when absent; surface any other lookup error. Returns the
error and the writes issued. -/
def SecretMirror.mirrorSecret (c : SecretMirror) (source : Secret)
    (to' : SecretLocation) : Option String × List WriteOp :=
  if source.Data.length = 0 then (none, [])
  else
    match c.lister to'.Namespace to'.Name with
    | GetResult.found secret =>
      if secret.Data = source.Data then (none, [])
      else
        let destination := { secret.DeepCopy with Data := source.Data }
        (c.client.updateResult destination, [WriteOp.update to'.Namespace destination])
    | GetResult.notFound =>
      let destination := createdSecret source to'
      (c.client.createResult destination, [WriteOp.create to'.Namespace destination])
    | GetResult.failed getErr => (some getErr, [])

/-- Rendering of the aggregated error list in
`fmt.Errorf("failed to mirror secret: %v", mirrorErrors)`. -/
def combinedError (errs : List (Option String)) : String :=
  "failed to mirror secret: " ++ String.intercalate " " (errs.map (fun e => e.getD "<nil>"))

/-- `reconcile(key)`: split the key; treat a missing source as already
deleted; return other lookup errors; skip a source being deleted; then for
every rule whose `From` matches the key, run `mirrorSecret` and append its
result (as the Go code does, whether or not that result is nil) to
`mirrorErrors`; finally error iff `mirrorErrors` is non-empty. -/
def SecretMirror.reconcile (c : SecretMirror) (key : String) :
    Option String × List WriteOp :=
  match splitMetaNamespaceKey key with
  | Except.error e => (some e, [])
  | Except.ok (ns, name) =>
    match c.lister ns name with
    | GetResult.notFound => (none, [])
    | GetResult.failed e => (some e, [])
    | GetResult.found source =>
      if source.ObjectMeta.DeletionTimestamp ≠ none then (none, [])
      else
        let acc := c.config.Secrets.foldl (fun acc mc =>
          if mc.From.Namespace = ns ∧ mc.From.Name = name then
            let r := c.mirrorSecret source mc.To
            (acc.1 ++ [r.1], acc.2 ++ r.2)
          else acc) (([], []) : List (Option String) × List WriteOp)
        if acc.1.length > 0 then (some (combinedError acc.1), acc.2)
        else (none, acc.2)

example : splitMetaNamespaceKey "test-ns/src" = Except.ok ("test-ns", "src") := rfl

example : splitMetaNamespaceKey "" = Except.ok ("", "") := rfl

example : splitMetaNamespaceKey "a/b/c" =
    Except.error "unexpected key format: a/b/c" := rfl

/-- The config `Agent`: its field `c` is the published `*Configuration`
(nilable pointer, `none` before `Start`). -/
structure Agent where
  c : Option Configuration

/-- `Agent.Config()`: returns the currently published snapshot. -/
def Agent.Config (ca : Agent) : Option Configuration := ca.c

/-- `Agent.Set(c)`: replaces the published snapshot. -/
def Agent.Set (ca : Agent) (c : Configuration) : Agent := { ca with c := some c }

/-- One iteration of the watch goroutine in `Agent.Start` for a filesystem
event: `Load` is attempted; on error the agent is left unchanged (the error
is only logged); on success `Set` publishes the loaded configuration.
`loadResult` is the outcome of that `Load` call (its YAML parsing is
outside the embedded code). -/
def Agent.watchEvent (ca : Agent) (loadResult : Except String Configuration) : Agent :=
  match loadResult with
  | Except.error _ => ca
  | Except.ok c => ca.Set c

/-- `maxRetries = 15`. -/
def maxRetries : Nat := 15

/-- The per-key retry state of the rate-limiting work queue: the requeue
counter consulted by `NumRequeues`. -/
structure RateLimiter where
  counts : String → Nat

/-- `queue.NumRequeues(key)`. -/
def RateLimiter.NumRequeues (q : RateLimiter) (key : String) : Nat := q.counts key

/-- `queue.Forget(key)`: resets the key's requeue counter. -/
def RateLimiter.Forget (q : RateLimiter) (key : String) : RateLimiter :=
  ⟨fun k => if k = key then 0 else q.counts k⟩

/-- `queue.AddRateLimited(key)`: schedules a redelivery and increments the
key's requeue counter. -/
def RateLimiter.AddRateLimited (q : RateLimiter) (key : String) : RateLimiter :=
  ⟨fun k => if k = key then q.counts k + 1 else q.counts k⟩

/-- A fresh queue: every requeue counter is zero. -/
def freshRateLimiter : RateLimiter := ⟨fun _ => 0⟩

/-- What `handleErr` did to the key: re-added it rate-limited, or forgot it. -/
inductive QueueAction where
  | requeued
  | forgot
deriving DecidableEq

/-- `handleErr(err, key)`: nil error forgets the key; an error with fewer
than `maxRetries` requeues re-adds it rate-limited; otherwise the key is
dropped (forgotten, not re-added). -/
def handleErr (err : Option String) (key : String) (q : RateLimiter) :
    RateLimiter × QueueAction :=
  match err with
  | none => (q.Forget key, QueueAction.forgot)
  | some _ =>
    if q.NumRequeues key < maxRetries then (q.AddRateLimited key, QueueAction.requeued)
    else (q.Forget key, QueueAction.forgot)

/-- Deliver a key whose handler always errors, repeatedly: each delivery
runs `handleErr` with a non-nil error; a `requeued` outcome redelivers, a
`forgot` outcome drops the key and ends the run. Returns how many times
the key was requeued and whether it was dropped within the given fuel. -/
def runFailingKey (key : String) : Nat → RateLimiter → Nat × Bool
  | 0, _ => (0, false)
  | fuel + 1, q =>
    match handleErr (some "sync error") key q with
    | (q', QueueAction.requeued) =>
      let r := runFailingKey key fuel q'
      (r.1 + 1, r.2)
    | (_, QueueAction.forgot) => (0, true)

/-- Following the spec's words (a second definition, for comparison with
`SecretMirror.reconcile`): the sync handler reads the currently published
`ConfigSnapshot` and selects every `MirrorRule` whose `From` matches the
key, so a newly published snapshot governs every subsequent invocation.
Identical to `SecretMirror.reconcile` except that the rules are taken from
the `published` snapshot instead of the controller's stored field. -/
def reconcileUsingSnapshot (c : SecretMirror) (published : Configuration)
    (key : String) : Option String × List WriteOp :=
  match splitMetaNamespaceKey key with
  | Except.error e => (some e, [])
  | Except.ok (ns, name) =>
    match c.lister ns name with
    | GetResult.notFound => (none, [])
    | GetResult.failed e => (some e, [])
    | GetResult.found source =>
      if source.ObjectMeta.DeletionTimestamp ≠ none then (none, [])
      else
        let acc := published.Secrets.foldl (fun acc mc =>
          if mc.From.Namespace = ns ∧ mc.From.Name = name then
            let r := c.mirrorSecret source mc.To
            (acc.1 ++ [r.1], acc.2 ++ r.2)
          else acc) (([], []) : List (Option String) × List WriteOp)
        if acc.1.length > 0 then (some (combinedError acc.1), acc.2)
        else (none, acc.2)

/-- The source secret of `TestMirrorSecret`: `test-ns/src` with data
`{"test_key": "test_value"}`. -/
def exSource : Secret :=
  { ObjectMeta :=
      { Name := "src", Namespace := "test-ns",
        Labels := [], Annotations := [], DeletionTimestamp := none },
    SecretType := "",
    Data := [("test_key", "test_value")] }

/-- A lister holding exactly `exSource` at `test-ns/src`; every other
lookup is not-found (in particular `test-ns/dst`). -/
def exLister : String → String → GetResult := fun ns n =>
  if ns = "test-ns" ∧ n = "src" then GetResult.found exSource else GetResult.notFound

/-- A client whose create and update calls always succeed. -/
def exClient : Client :=
  { createResult := fun _ => none, updateResult := fun _ => none }

/-- The configuration of `TestMirrorSecret`: one rule mirroring
`test-ns/src` to `test-ns/dst`. -/
def exConfig : Configuration :=
  ⟨[{ From := { Namespace := "test-ns", Name := "src" },
      To := { Namespace := "test-ns", Name := "dst" } }]⟩

/-- The controller of `TestMirrorSecret`. -/
def exMirror : SecretMirror := NewSecretMirror exLister exClient exConfig

/-- The destination location `test-ns/dst` of the test rule. -/
def exDst : SecretLocation := { Namespace := "test-ns", Name := "dst" }

example : (exMirror.mirrorSecret exSource exDst)
    = (none, [WriteOp.create "test-ns"
        { ObjectMeta := { Name := "dst", Namespace := "test-ns", Labels := [],
                          Annotations := [], DeletionTimestamp := none },
          SecretType := "", Data := [("test_key", "test_value")] }]) := by decide

example : (exMirror.reconcile "test-ns/src").1 = some "failed to mirror secret: <nil>" := by
  decide

/-- Claim C1. For a key whose source exists, is not being deleted and has
non-empty `Data`, the claim says `reconcile` errors iff some matching
rule's `mirrorSecret` errored. At the input of the repository's own
`TestMirrorSecret` ("normal secret is copied": one matching rule, source
`test-ns/src` with data, destination absent, create succeeding) the single
`mirrorSecret` call succeeds, yet `reconcile` returns a non-nil combined
error, because the code appends every `mirrorSecret` result — nil
included — to `mirrorErrors` and errors whenever that list is non-empty. -/
theorem C1_reconcile_errors_despite_success :
    (exMirror.mirrorSecret exSource exDst).1 = none
    ∧ exSource.ObjectMeta.DeletionTimestamp = none
    ∧ exSource.Data.length ≠ 0
    ∧ exMirror.lister "test-ns" "src" = GetResult.found exSource
    ∧ (exMirror.reconcile "test-ns/src").1 = some "failed to mirror secret: <nil>" := by
  refine ⟨by decide, rfl, by decide, by decide, by decide⟩

/-- The empty configuration the stale controller is constructed with. -/
def emptyConfig : Configuration := ⟨[]⟩

/-- A controller constructed (per `NewSecretMirror`) while the published
configuration was still empty. -/
def staleMirror : SecretMirror := NewSecretMirror exLister exClient emptyConfig

/-- Claim C2. The claim says a `reconcile` invocation uses the snapshot
published at the time of the invocation. Counterexample: a controller is
constructed while the configuration is empty; the agent then publishes
`exConfig`, whose rule matches key `test-ns/src`. A subsequent `reconcile`
still selects no rule and issues no write, whereas the published rule set
(`reconcileUsingSnapshot`, the spec's reading) would create the
destination: `reconcile` reads the `Configuration` value stored in the
`SecretMirror` struct at construction, which no published snapshot ever
replaces. -/
theorem C2_reconcile_ignores_published_snapshot :
    ((Agent.mk none).Set exConfig).Config = some exConfig
    ∧ staleMirror.reconcile "test-ns/src" = (none, [])
    ∧ (reconcileUsingSnapshot staleMirror exConfig "test-ns/src").2
        = [WriteOp.create "test-ns" (createdSecret exSource exDst)] := by
  refine ⟨rfl, by decide, by decide⟩

/-- After `AddRateLimited`, the key's own counter has grown by one. -/
theorem AddRateLimited_counts_self (q : RateLimiter) (key : String) :
    (q.AddRateLimited key).counts key = q.counts key + 1 := by
  simp [RateLimiter.AddRateLimited]

/-- Characterization of the always-failing run: with counter `c ≤ 15`, the
key is requeued `min fuel (15 - c)` more times and is dropped exactly when
the fuel outlasts those requeues. -/
theorem runFailingKey_eq (key : String) :
    ∀ (fuel : Nat) (q : RateLimiter), q.counts key ≤ maxRetries →
      runFailingKey key fuel q
        = (min fuel (maxRetries - q.counts key),
           decide (maxRetries - q.counts key < fuel)) := by
  intro fuel
  induction fuel with
  | zero =>
    intro q _
    simp [runFailingKey]
  | succ n ih =>
    intro q hq
    by_cases hc : q.counts key < maxRetries
    · have hstep : handleErr (some "sync error") key q
          = (q.AddRateLimited key, QueueAction.requeued) := by
        simp [handleErr, RateLimiter.NumRequeues, hc]
      have hcount : (q.AddRateLimited key).counts key = q.counts key + 1 :=
        AddRateLimited_counts_self q key
      have hle : (q.AddRateLimited key).counts key ≤ maxRetries := by
        rw [hcount]; omega
      have hrec := ih (q.AddRateLimited key) hle
      rw [runFailingKey, hstep]
      simp only [hrec, hcount]
      rw [Prod.mk.injEq]
      refine ⟨by omega, ?_⟩
      rw [decide_eq_decide]
      omega
    · have hc15 : q.counts key = maxRetries := by omega
      have hstep : handleErr (some "sync error") key q
          = (q.Forget key, QueueAction.forgot) := by
        simp [handleErr, RateLimiter.NumRequeues, hc]
      rw [runFailingKey, hstep]
      simp [hc15]

/-- A queue whose counter for every key already sits at `maxRetries`. -/
def q15 : RateLimiter := ⟨fun _ => 15⟩

/-- Claim C3. After the sync handler returns: a nil error forgets the key
(its requeue count resets, no re-add); a non-nil error with
`NumRequeues < maxRetries` re-adds the key rate-limited; a non-nil error at
or above `maxRetries` forgets the key without re-adding it. Consequently a
key whose handler always errors is, from a fresh queue, requeued exactly 15
times and then dropped, however much longer delivery could continue. -/
theorem C3_handleErr_retry_policy :
    ∀ (key : String) (q : RateLimiter) (e : String),
      (handleErr none key q = (q.Forget key, QueueAction.forgot)
        ∧ (q.Forget key).NumRequeues key = 0)
      ∧ (q.NumRequeues key < maxRetries →
          handleErr (some e) key q = (q.AddRateLimited key, QueueAction.requeued))
      ∧ (¬ q.NumRequeues key < maxRetries →
          handleErr (some e) key q = (q.Forget key, QueueAction.forgot))
      ∧ (∀ extra : Nat, runFailingKey key (16 + extra) freshRateLimiter = (15, true)) := by
  intro key q e
  refine ⟨⟨rfl, by simp [RateLimiter.Forget, RateLimiter.NumRequeues]⟩, ?_, ?_, ?_⟩
  · intro h
    simp [handleErr, h]
  · intro h
    simp [handleErr, h]
  · intro extra
    have h0 : freshRateLimiter.counts key ≤ maxRetries := by
      simp [freshRateLimiter, maxRetries]
    rw [runFailingKey_eq key (16 + extra) freshRateLimiter h0]
    simp [freshRateLimiter, maxRetries]
    omega

/-- Witness for C3 at concrete inputs: a first failure on a fresh queue is
requeued; a failure at 15 requeues is forgotten; 16 failing deliveries of
key `k` from a fresh queue yield exactly 15 requeues and then the drop. -/
theorem C3_handleErr_retry_policy_witness :
    handleErr (some "boom") "k" freshRateLimiter
        = (freshRateLimiter.AddRateLimited "k", QueueAction.requeued)
    ∧ handleErr (some "boom") "k" q15 = (q15.Forget "k", QueueAction.forgot)
    ∧ runFailingKey "k" 16 freshRateLimiter = (15, true) :=
  ⟨(C3_handleErr_retry_policy "k" freshRateLimiter "boom").2.1 (by decide),
   (C3_handleErr_retry_policy "k" q15 "boom").2.2.1 (by decide),
   (C3_handleErr_retry_policy "k" freshRateLimiter "boom").2.2.2 0⟩

/-- Claim C4. For every filesystem event handled by the watch loop, a
reload is attempted (its outcome is the `loadResult` of `watchEvent`):
when the reload fails, the published snapshot read by `Config()` is left
exactly as it was — the error never reaches `Config()` callers; when the
reload succeeds, the published snapshot is replaced wholesale by the newly
loaded configuration. -/
theorem C4_watch_reload_policy :
    ∀ (ca : Agent) (e : String) (cNew : Configuration),
      (ca.watchEvent (Except.error e)).Config = ca.Config
      ∧ (ca.watchEvent (Except.ok cNew)).Config = some cNew := by
  intro ca e cNew
  exact ⟨rfl, rfl⟩

/-- Claim C5. A source secret with empty `Data` makes `mirrorSecret`
return nil without issuing any write, whatever the destination holds. -/
theorem C5_mirror_skip_on_empty :
    ∀ (c : SecretMirror) (source : Secret) (to' : SecretLocation),
      source.Data.length = 0 →
      c.mirrorSecret source to' = (none, []) := by
  intro c source t h
  simp [SecretMirror.mirrorSecret, h]

/-- A source secret without data, as in the "empty src is ignored" case of
`TestMirrorSecret`. -/
def exEmptySource : Secret :=
  { ObjectMeta :=
      { Name := "src", Namespace := "test-ns",
        Labels := [], Annotations := [], DeletionTimestamp := none },
    SecretType := "",
    Data := [] }

/-- The location `test-ns/src`, a destination that `exLister` populates. -/
def exSrcLoc : SecretLocation := { Namespace := "test-ns", Name := "src" }

/-- Witness for C5: mirroring an empty source onto an existing, populated
destination (`test-ns/src` holds `exSource`) performs no write. -/
theorem C5_mirror_skip_on_empty_witness :
    exMirror.mirrorSecret exEmptySource exSrcLoc = (none, []) :=
  C5_mirror_skip_on_empty exMirror exEmptySource exSrcLoc (by decide)

/-- Claim C6. When the destination exists and its `Data` is already
deep-equal to the non-empty source `Data`, `mirrorSecret` returns nil and
issues no write. -/
theorem C6_mirror_idempotent :
    ∀ (c : SecretMirror) (source dest : Secret) (to' : SecretLocation),
      source.Data.length ≠ 0 →
      c.lister to'.Namespace to'.Name = GetResult.found dest →
      dest.Data = source.Data →
      c.mirrorSecret source to' = (none, []) := by
  intro c source dest t h1 h2 h3
  simp [SecretMirror.mirrorSecret, h1, h2, h3]

/-- Witness for C6: re-mirroring `exSource` onto `test-ns/src`, which
already holds exactly that data, is a no-op. -/
theorem C6_mirror_idempotent_witness :
    exMirror.mirrorSecret exSource exSrcLoc = (none, []) :=
  C6_mirror_idempotent exMirror exSource exSource exSrcLoc
    (by decide) (by decide) rfl

/-- Claim C7. When the destination lookup reports not-found and the source
`Data` is non-empty, `mirrorSecret` issues exactly one create, at the
destination namespace and name and with the source's `Data`, and its
error is precisely the create call's error — nil exactly when the create
succeeds. -/
theorem C7_mirror_creates_when_absent :
    ∀ (c : SecretMirror) (source : Secret) (to' : SecretLocation),
      source.Data.length ≠ 0 →
      c.lister to'.Namespace to'.Name = GetResult.notFound →
      c.mirrorSecret source to'
          = (c.client.createResult (createdSecret source to'),
             [WriteOp.create to'.Namespace (createdSecret source to')])
      ∧ (createdSecret source to').ObjectMeta.Namespace = to'.Namespace
      ∧ (createdSecret source to').ObjectMeta.Name = to'.Name
      ∧ (createdSecret source to').Data = source.Data
      ∧ ((c.mirrorSecret source to').1 = none
          ↔ c.client.createResult (createdSecret source to') = none) := by
  intro c source t h1 h2
  have hmain : c.mirrorSecret source t
      = (c.client.createResult (createdSecret source t),
         [WriteOp.create t.Namespace (createdSecret source t)]) := by
    simp [SecretMirror.mirrorSecret, h1, h2]
  refine ⟨hmain, rfl, rfl, rfl, ?_⟩
  rw [hmain]

/-- Witness for C7: with no `test-ns/dst` in the lister and an
always-succeeding client, mirroring `exSource` to `exDst` creates the
destination secret and returns nil. -/
theorem C7_mirror_creates_when_absent_witness :
    exMirror.mirrorSecret exSource exDst
        = (exMirror.client.createResult (createdSecret exSource exDst),
           [WriteOp.create exDst.Namespace (createdSecret exSource exDst)])
    ∧ (createdSecret exSource exDst).ObjectMeta.Namespace = exDst.Namespace
    ∧ (createdSecret exSource exDst).ObjectMeta.Name = exDst.Name
    ∧ (createdSecret exSource exDst).Data = exSource.Data
    ∧ ((exMirror.mirrorSecret exSource exDst).1 = none
        ↔ exMirror.client.createResult (createdSecret exSource exDst) = none) :=
  C7_mirror_creates_when_absent exMirror exSource exDst (by decide) (by decide)

/-- Claim C8. When the destination exists with `Data` differing from the
non-empty source `Data`, the object submitted to the update call is the
deep copy of the destination with only `Data` replaced: its metadata and
type are the destination's own, unchanged. -/
theorem C8_update_preserves_other_fields :
    ∀ (c : SecretMirror) (source dest : Secret) (to' : SecretLocation),
      source.Data.length ≠ 0 →
      c.lister to'.Namespace to'.Name = GetResult.found dest →
      dest.Data ≠ source.Data →
      c.mirrorSecret source to'
          = (c.client.updateResult { dest.DeepCopy with Data := source.Data },
             [WriteOp.update to'.Namespace { dest.DeepCopy with Data := source.Data }])
      ∧ ({ dest.DeepCopy with Data := source.Data } : Secret).ObjectMeta = dest.ObjectMeta
      ∧ ({ dest.DeepCopy with Data := source.Data } : Secret).SecretType = dest.SecretType
      ∧ ({ dest.DeepCopy with Data := source.Data } : Secret).Data = source.Data := by
  intro c source dest t h1 h2 h3
  refine ⟨?_, rfl, rfl, rfl⟩
  simp [SecretMirror.mirrorSecret, h1, h2, h3]

/-- A source carrying new data for `test-ns/src`, differing from what the
destination currently holds. -/
def exSource2 : Secret :=
  { ObjectMeta :=
      { Name := "src2", Namespace := "other-ns",
        Labels := [("team", "ci")], Annotations := [("note", "rotated")],
        DeletionTimestamp := none },
    SecretType := "Opaque",
    Data := [("test_key", "rotated_value")] }

/-- Witness for C8: updating `test-ns/src` (holding `exSource`) from
`exSource2` submits `exSource` with only its `Data` replaced. -/
theorem C8_update_preserves_other_fields_witness :
    exMirror.mirrorSecret exSource2 exSrcLoc
        = (exMirror.client.updateResult { exSource.DeepCopy with Data := exSource2.Data },
           [WriteOp.update exSrcLoc.Namespace
              { exSource.DeepCopy with Data := exSource2.Data }])
    ∧ ({ exSource.DeepCopy with Data := exSource2.Data } : Secret).ObjectMeta
        = exSource.ObjectMeta
    ∧ ({ exSource.DeepCopy with Data := exSource2.Data } : Secret).SecretType
        = exSource.SecretType
    ∧ ({ exSource.DeepCopy with Data := exSource2.Data } : Secret).Data = exSource2.Data :=
  C8_update_preserves_other_fields exMirror exSource2 exSource exSrcLoc
    (by decide) (by decide) (by decide)

/-- Claim C9. `reconcile` returns nil with no write both when the source
lookup reports not-found and when the source exists with a deletion
requested (non-nil `DeletionTimestamp`); in neither case is anything
propagated to a destination. -/
theorem C9_reconcile_noop_on_missing_or_deleting :
    ∀ (c : SecretMirror) (key ns name : String) (source : Secret),
      splitMetaNamespaceKey key = Except.ok (ns, name) →
      (c.lister ns name = GetResult.notFound → c.reconcile key = (none, []))
      ∧ (c.lister ns name = GetResult.found source →
          source.ObjectMeta.DeletionTimestamp ≠ none → c.reconcile key = (none, [])) := by
  intro c key ns name source hsplit
  constructor
  · intro hmiss
    simp [SecretMirror.reconcile, hsplit, hmiss]
  · intro hfound hdel
    simp [SecretMirror.reconcile, hsplit, hfound, hdel]

/-- A source secret whose deletion has been requested. -/
def exDeletingSource : Secret :=
  { ObjectMeta :=
      { Name := "src", Namespace := "test-ns",
        Labels := [], Annotations := [], DeletionTimestamp := some 1 },
    SecretType := "",
    Data := [("test_key", "test_value")] }

/-- A controller identical to `exMirror` except that its lister holds the
being-deleted `exDeletingSource` at `test-ns/src`. -/
def exDeletingMirror : SecretMirror :=
  NewSecretMirror
    (fun ns n =>
      if ns = "test-ns" ∧ n = "src" then GetResult.found exDeletingSource
      else GetResult.notFound)
    exClient exConfig

/-- Witness for C9: a key whose source does not exist reconciles to nil
with no write, and so does `test-ns/src` while its source is being
deleted — despite the matching mirror rule. -/
theorem C9_reconcile_noop_witness :
    exMirror.reconcile "nowhere/nothing" = (none, [])
    ∧ exDeletingMirror.reconcile "test-ns/src" = (none, []) :=
  ⟨(C9_reconcile_noop_on_missing_or_deleting exMirror "nowhere/nothing"
      "nowhere" "nothing" exSource rfl).1 (by decide),
   (C9_reconcile_noop_on_missing_or_deleting exDeletingMirror "test-ns/src"
      "test-ns" "src" exDeletingSource rfl).2 (by decide) (by decide)⟩

/-- Claim C10. The secret created for an absent destination carries only
the destination namespace and name plus the source `Data`: its labels and
annotations are empty, its deletion timestamp nil and its type the zero
value, whatever the source object carries in those fields. -/
theorem C10_created_secret_is_minimal :
    ∀ (c : SecretMirror) (source : Secret) (to' : SecretLocation),
      source.Data.length ≠ 0 →
      c.lister to'.Namespace to'.Name = GetResult.notFound →
      (c.mirrorSecret source to').2
          = [WriteOp.create to'.Namespace
              { ObjectMeta :=
                  { Name := to'.Name, Namespace := to'.Namespace,
                    Labels := [], Annotations := [], DeletionTimestamp := none },
                SecretType := "",
                Data := source.Data }] := by
  intro c source t h1 h2
  simp [SecretMirror.mirrorSecret, createdSecret, h1, h2]

/-- Witness for C10: mirroring `exSource2` — which carries labels,
annotations and a non-empty type — to the absent `test-ns/dst` creates an
object with none of those fields copied. -/
theorem C10_created_secret_is_minimal_witness :
    (exMirror.mirrorSecret exSource2 exDst).2
        = [WriteOp.create exDst.Namespace
            { ObjectMeta :=
                { Name := exDst.Name, Namespace := exDst.Namespace,
                  Labels := [], Annotations := [], DeletionTimestamp := none },
              SecretType := "",
              Data := exSource2.Data }] :=
  C10_created_secret_is_minimal exMirror exSource2 exDst (by decide) (by decide)
